import Mathlib

set_option maxRecDepth 100000

/-!
Shallow embedding of `main.go` of santekno/ai-overview-google-scrapping.

The program is a single-file Go web app: an HTTP handler on `/` reads the
query parameter `q`, calls `fetchAIOverview`, and renders an HTML template.
`fetchAIOverview` issues a primary SerpAPI search (engine "google"); if the
response's "ai_overview" field decodes to a non-empty overview it is
returned, otherwise the same field is decoded as `SearchMetadata` and a
secondary call (engine "google_ai_overview") is made with the extracted
`page_token`.

Modelling conventions:
* JSON values are the inductive `Json`; numbers are modelled as `Int`
  (no claim under study depends on fractional numbers).
* `encoding/json` unmarshalling into the Go structs is modelled by the
  `decode*` functions: a JSON `null` leaves the zero value in place and is
  not an error; unknown object keys are ignored; a present key whose value
  has the wrong shape is an error; object keys match struct tags
  case-insensitively (Go falls back to `EqualFold`; we model ASCII folding).
  Duplicate keys: Go applies each occurrence in order; we decode the last
  occurrence, which agrees with Go except for exotic duplicate-key payloads
  none of the claims involve.
* The network (`search.GetJSON`) is an oracle parameter mapping the request
  parameters to either an error string or the decoded top-level JSON object
  (Go's `map[string]interface{}`, modelled as an association list).
* `fetchAIOverview` additionally returns the list of parameter maps of the
  external calls it issued, so that "no second call is made" is a statement
  about the embedded function.
-/

/-- Go struct `SearchMetadata` (main.go:18-21): the fallback-path metadata
carrying the continuation token. -/
structure SearchMetadata where
  PageToken : String
  SerpapiLink : String
  deriving Repr, DecidableEq

/-- Go struct `ListItem` (main.go:41-45). -/
structure ListItem where
  Title : String
  Snippet : String
  ReferenceIndexes : List Int
  deriving Repr, DecidableEq

/-- Go struct `TextBlock` (main.go:33-39). The Go field `Type` is spelled
`Typ` here because `Type` is a Lean keyword; the Go field `List` is `Lst`
to avoid shadowing `List`. -/
structure TextBlock where
  Typ : String
  Snippet : String
  SnippetHighlightedWords : List String
  ReferenceIndexes : List Int
  Lst : List ListItem
  deriving Repr, DecidableEq

/-- Go struct `Reference` (main.go:47-53). -/
structure Reference where
  Title : String
  Link : String
  Snippet : String
  Source : String
  Index : Int
  deriving Repr, DecidableEq

/-- Go struct `AIOverview` (main.go:23-27). -/
structure AIOverview where
  TextBlocks : List TextBlock
  References : List Reference
  Error : String
  deriving Repr, DecidableEq

/-- `AIOverview.IsEmpty` (main.go:29-31): true when both the text blocks and
the references are empty. -/
def AIOverview.IsEmpty (a : AIOverview) : Bool :=
  a.TextBlocks.length == 0 && a.References.length == 0

/-- JSON values, as produced by decoding a SerpAPI response body. -/
inductive Json where
  | null : Json
  | bool (b : Bool) : Json
  | num (n : Int) : Json
  | str (s : String) : Json
  | arr (elems : List Json) : Json
  | obj (fields : List (String × Json)) : Json

/-- Go `map[string]interface{}` indexing `results["ai_overview"]`: exact-key
lookup; with duplicate keys in the raw JSON, Go's map decoding keeps the
last occurrence. -/
def jLookup (fields : List (String × Json)) (k : String) : Option Json :=
  ((fields.filter (fun kv => kv.1 == k)).getLast?).map (fun kv => kv.2)

/-- Case folding used for struct-tag matching (Go `encoding/json` matches
keys case-insensitively when no exact match exists; our struct tags are
distinct lowercase names, so folded equality is an exact model). -/
def keyMatches (k tag : String) : Bool :=
  k.data.map Char.toLower == tag.data.map Char.toLower

/-- The JSON value an object assigns to the struct field with the given
tag: the last key matching the tag under case folding. -/
def lookupField (fields : List (String × Json)) (tag : String) : Option Json :=
  ((fields.filter (fun kv => keyMatches kv.1 tag)).getLast?).map (fun kv => kv.2)

/-- Unmarshal a JSON value into a Go `string`: strings succeed, `null`
leaves the zero value `""`, everything else is a type error. -/
def decodeString : Json → Except String String
  | Json.str s => Except.ok s
  | Json.null => Except.ok ""
  | _ => Except.error "cannot unmarshal into string"

/-- Unmarshal a JSON value into a Go `int`. -/
def decodeInt : Json → Except String Int
  | Json.num n => Except.ok n
  | Json.null => Except.ok 0
  | _ => Except.error "cannot unmarshal into int"

/-- Unmarshal a JSON value into a Go slice, element-wise. -/
def decodeList (dec : Json → Except String α) : Json → Except String (List α)
  | Json.arr elems => elems.mapM dec
  | Json.null => Except.ok []
  | _ => Except.error "cannot unmarshal into slice"

/-- Decode one struct field from an object's association list: a missing
field or a `null` value keeps the zero value, a present value must decode. -/
def decodeField (fields : List (String × Json)) (tag : String)
    (dec : Json → Except String α) (dflt : α) : Except String α :=
  match lookupField fields tag with
  | none => Except.ok dflt
  | some Json.null => Except.ok dflt
  | some j => dec j

/-- Unmarshal into `ListItem` (tags `title`, `snippet`, `reference_indexes`). -/
def decodeListItem : Json → Except String ListItem
  | Json.null => Except.ok ⟨"", "", []⟩
  | Json.obj fields => do
      let title ← decodeField fields "title" decodeString ""
      let snippet ← decodeField fields "snippet" decodeString ""
      let ri ← decodeField fields "reference_indexes" (decodeList decodeInt) []
      Except.ok ⟨title, snippet, ri⟩
  | _ => Except.error "cannot unmarshal into ListItem"

/-- Unmarshal into `TextBlock` (tags `type`, `snippet`,
`snippet_highlighted_words`, `reference_indexes`, `list`). -/
def decodeTextBlock : Json → Except String TextBlock
  | Json.null => Except.ok ⟨"", "", [], [], []⟩
  | Json.obj fields => do
      let ty ← decodeField fields "type" decodeString ""
      let snippet ← decodeField fields "snippet" decodeString ""
      let hw ← decodeField fields "snippet_highlighted_words" (decodeList decodeString) []
      let ri ← decodeField fields "reference_indexes" (decodeList decodeInt) []
      let l ← decodeField fields "list" (decodeList decodeListItem) []
      Except.ok ⟨ty, snippet, hw, ri, l⟩
  | _ => Except.error "cannot unmarshal into TextBlock"

/-- Unmarshal into `Reference` (tags `title`, `link`, `snippet`, `source`,
`index`). -/
def decodeReference : Json → Except String Reference
  | Json.null => Except.ok ⟨"", "", "", "", 0⟩
  | Json.obj fields => do
      let title ← decodeField fields "title" decodeString ""
      let link ← decodeField fields "link" decodeString ""
      let snippet ← decodeField fields "snippet" decodeString ""
      let source ← decodeField fields "source" decodeString ""
      let idx ← decodeField fields "index" decodeInt 0
      Except.ok ⟨title, link, snippet, source, idx⟩
  | _ => Except.error "cannot unmarshal into Reference"

/-- Unmarshal into `AIOverview` (tags `text_blocks`, `references`, `error`);
models `json.Unmarshal(jsonBytes, &overview)` at main.go:179 and
main.go:214.  `json.Marshal` of a value previously produced by decoding a
response body never fails, so marshalling `aiOverviewRaw` and unmarshalling
the bytes is decoding the raw JSON value directly. -/
def decodeAIOverview : Json → Except String AIOverview
  | Json.null => Except.ok ⟨[], [], ""⟩
  | Json.obj fields => do
      let tb ← decodeField fields "text_blocks" (decodeList decodeTextBlock) []
      let refs ← decodeField fields "references" (decodeList decodeReference) []
      let e ← decodeField fields "error" decodeString ""
      Except.ok ⟨tb, refs, e⟩
  | _ => Except.error "cannot unmarshal into AIOverview"

/-- Unmarshal into `SearchMetadata` (tags `page_token`, `serpapi_link`);
models `json.Unmarshal(jsonBytes, &meta)` at main.go:189. -/
def decodeSearchMetadata : Json → Except String SearchMetadata
  | Json.null => Except.ok ⟨"", ""⟩
  | Json.obj fields => do
      let tok ← decodeField fields "page_token" decodeString ""
      let link ← decodeField fields "serpapi_link" decodeString ""
      Except.ok ⟨tok, link⟩
  | _ => Except.error "cannot unmarshal into SearchMetadata"

/-- A SerpAPI request parameter map (Go `map[string]string`); the list
order mirrors the source's map literal. -/
abbrev Params := List (String × String)

/-- The parameters of the primary call (main.go:143-150): engine "google",
the query, and the fixed location/domain/country/language settings. -/
def primaryParams (query : String) : Params :=
  [("engine", "google"), ("q", query), ("location", "Indonesia"),
   ("google_domain", "google.com"), ("gl", "id"), ("hl", "id")]

/-- The parameters of the secondary call (main.go:197-202): engine
"google_ai_overview", the continuation token, and the fixed
country/language settings. -/
def secondaryParams (tok : String) : Params :=
  [("engine", "google_ai_overview"), ("page_token", tok), ("hl", "id"), ("gl", "id")]

/-- The external search API (`g.NewGoogleSearch(params, apiKey).GetJSON()`):
given the api key and the parameter map, either a transport/API error or
the decoded top-level JSON object. -/
abbrev Oracle := String → Params → Except String (List (String × Json))

/-- The error returned by `fetchAIOverview`; the constructors are the three
error kinds (transport failure, missing "ai_overview", decode failure). -/
inductive FetchErr where
  | fetchFail (msg : String) : FetchErr
  | notFound : FetchErr
  | decodeFail (msg : String) : FetchErr
  deriving Repr, DecidableEq

/-- The fallback path of `fetchAIOverview` (main.go:186-220): decode the
payload as `SearchMetadata`, issue the secondary call with the extracted
`page_token`, and decode the secondary response's "ai_overview" field —
which is looked up without an `ok` check (main.go:210), so a missing key
yields the `nil` interface value, which marshals to JSON `null`. -/
def fetchFallback (api : Oracle) (apiKey query : String) (payload : Json) :
    List Params × Except FetchErr AIOverview :=
  match decodeSearchMetadata payload with
  | Except.error e => ([primaryParams query], Except.error (FetchErr.decodeFail e))
  | Except.ok meta =>
    match api apiKey (secondaryParams meta.PageToken) with
    | Except.error e =>
        ([primaryParams query, secondaryParams meta.PageToken],
         Except.error (FetchErr.fetchFail e))
    | Except.ok results2 =>
      match decodeAIOverview ((jLookup results2 "ai_overview").getD Json.null) with
      | Except.error e =>
          ([primaryParams query, secondaryParams meta.PageToken],
           Except.error (FetchErr.decodeFail e))
      | Except.ok result =>
          ([primaryParams query, secondaryParams meta.PageToken], Except.ok result)

/-- `fetchAIOverview` (main.go:139-221).  The api key that Go reads from the
environment (`os.Getenv("api_key")`, main.go:140) is the `apiKey` argument;
the first component of the result is the list of external calls issued. -/
def fetchAIOverview (api : Oracle) (apiKey query : String) :
    List Params × Except FetchErr AIOverview :=
  match api apiKey (primaryParams query) with
  | Except.error e => ([primaryParams query], Except.error (FetchErr.fetchFail e))
  | Except.ok results =>
    match jLookup results "ai_overview" with
    | none => ([primaryParams query], Except.error FetchErr.notFound)
    | some payload =>
      match decodeAIOverview payload with
      | Except.ok overview =>
          if overview.IsEmpty then fetchFallback api apiKey query payload
          else ([primaryParams query], Except.ok overview)
      | Except.error _ => fetchFallback api apiKey query payload

/-- One piece of the rendered page: either literal template text or an
escaped data substitution (an `{{...}}` action of the template). -/
inductive Piece where
  | lit (s : String) : Piece
  | dat (s : String) : Piece
  deriving Repr, DecidableEq

/-- The text of a piece. -/
def Piece.str : Piece → String
  | Piece.lit s => s
  | Piece.dat s => s

/-- Whether a piece is a data substitution. -/
def Piece.isDat : Piece → Bool
  | Piece.lit _ => false
  | Piece.dat _ => true

/-- The HTML escaping that `html/template` applies to every `{{...}}`
substitution: `<`, `>`, `&`, `'`, `"` are replaced by entities (Go also
replaces NUL by U+FFFD; no claim involves NUL).  In the `href` context Go
additionally URL-filters the value before HTML-escaping it; the claims
under study concern the HTML-escaping layer, which this models. -/
def escChar (c : Char) : List Char :=
  if c = '<' then "&lt;".data
  else if c = '>' then "&gt;".data
  else if c = '&' then "&amp;".data
  else if c = Char.ofNat 39 then "&#39;".data
  else if c = '"' then "&#34;".data
  else [c]

/-- Escape a whole string. -/
def htmlEscape (s : String) : String :=
  ⟨s.data.flatMap escChar⟩

/-- Whether a character is an ASCII letter (word-boundary test of the
`title` template function). -/
def isAsciiLetter (c : Char) : Bool :=
  ('a' ≤ c && c ≤ 'z') || ('A' ≤ c && c ≤ 'Z')

/-- Character-list worker for `titleGo`; the boolean says whether the
previous character was a letter. -/
def titleMap : Bool → List Char → List Char
  | _, [] => []
  | prevLetter, c :: cs =>
      (if prevLetter then c else c.toUpper) :: titleMap (isAsciiLetter c) cs

/-- The template function `title` (`strings.Title`, main.go:105-107):
upper-cases every letter that begins a word (ASCII model). -/
def titleGo (s : String) : String :=
  ⟨titleMap false s.data⟩

/-- The data handed to the template (the anonymous struct of main.go:114-117):
the query and the overview pointer, `none` standing for Go's `nil`. -/
structure TemplateData where
  Query : String
  AI : Option AIOverview
  deriving Repr, DecidableEq

/-- Template pieces of one list item (`{{range .List}}...{{end}}`,
main.go:81-83). -/
def itemPieces (it : ListItem) : List Piece :=
  [Piece.lit "\n\t\t\t\t\t\t<li><strong>", Piece.dat (htmlEscape it.Title),
   Piece.lit "</strong> — ", Piece.dat (htmlEscape it.Snippet),
   Piece.lit "</li>\n\t\t\t\t\t"]

/-- Template pieces of the `{{if .List}}` section (main.go:79-85); Go
template truthiness of a slice is non-emptiness. -/
def listPieces (l : List ListItem) : List Piece :=
  [Piece.lit "\n\t\t\t\t\t<ul>\n\t\t\t\t\t"] ++ l.flatMap itemPieces ++
  [Piece.lit "\n\t\t\t\t\t</ul>\n\t\t\t\t"]

/-- Template pieces of one text block (`{{range .AI.TextBlocks}}...{{end}}`,
main.go:75-87). -/
def blockPieces (tb : TextBlock) : List Piece :=
  [Piece.lit "\n\t\t\t<div class=\"text-block\">\n\t\t\t\t<strong>",
   Piece.dat (htmlEscape (titleGo tb.Typ)),
   Piece.lit "</strong>\n\t\t\t\t<p>", Piece.dat (htmlEscape tb.Snippet),
   Piece.lit "</p>\n\t\t\t\t"] ++
  (if tb.Lst.isEmpty then [] else listPieces tb.Lst) ++
  [Piece.lit "\n\t\t\t</div>\n\t\t"]

/-- Template pieces of one reference (`{{range .AI.References}}...{{end}}`,
main.go:89-96). -/
def refPieces (rf : Reference) : List Piece :=
  [Piece.lit "\n\t\t\t<div class=\"text-block\">\n\t\t\t<strong>title: <a href=\"",
   Piece.dat (htmlEscape rf.Link), Piece.lit "\">",
   Piece.dat (htmlEscape rf.Title),
   Piece.lit "</a></strong>\n\t\t\t<p>Snippet: ",
   Piece.dat (htmlEscape rf.Snippet),
   Piece.lit "</p>\n\t\t\t<p>Source: ",
   Piece.dat (htmlEscape rf.Source),
   Piece.lit "</p>\n\t\t\t<p>Index: ",
   Piece.dat (htmlEscape (toString rf.Index)),
   Piece.lit "</p>\n\t\t\t</div>\n\t\t"]

/-- Template pieces of the `{{if .AI}}` branch (main.go:73-96): the
overview heading, the text blocks, the references heading, the references. -/
def aiPieces (ai : AIOverview) : List Piece :=
  [Piece.lit "\n\t\t<h2>🧠 AI Overview Result</h2>\n\t\t"] ++
  ai.TextBlocks.flatMap blockPieces ++
  [Piece.lit "\n\t\t<h2>🧠 References</h2>\n\t\t"] ++
  ai.References.flatMap refPieces ++
  [Piece.lit "\n\t"]

/-- Pieces of the `{{if .AI}} ... {{else if .Query}} ... {{end}}` construct
(main.go:73-99): a non-nil overview renders the overview branch (even when
it has no blocks and no references), otherwise a non-empty query renders
the "No AI Overview found" message, otherwise nothing. -/
def bodyPieces (d : TemplateData) : List Piece :=
  match d.AI with
  | some ai => aiPieces ai
  | none =>
    if d.Query = "" then []
    else
      [Piece.lit "\n\t\t<p><em>No AI Overview found for: ",
       Piece.dat (htmlEscape d.Query), Piece.lit "</em></p>\n\t"]

/-- The literal template text from the start of `tmpl` (main.go:56) up to
the `value="{{.Query}}"` substitution of the form input. -/
def headLit : String :=
  "\n<!DOCTYPE html>\n<html>\n<head>\n\t<title>AI Overview Search</title>\n\t<style>\n\t\tbody \x7b font-family: sans-serif; margin: 2rem auto; max-width: 800px; \x7d\n\t\ttextarea \x7b width: 100%; \x7d\n\t\t.text-block \x7b margin-bottom: 1rem; padding: 1rem; background: #f9f9f9; border-radius: 8px; \x7d\n\t</style>\n</head>\n<body>\n\t<h1>🔍 Google AI Overview via SerpAPI</h1>\n\t<form method=\"GET\">\n\t\t<input type=\"text\" name=\"q\" placeholder=\"Enter a search keyword...\" style=\"width:80%;\" value=\""

/-- The literal template text between the query substitution and the
`{{if .AI}}` construct (rest of the form, main.go:70-72). -/
def formTailLit : String :=
  "\" required />\n\t\t<button type=\"submit\">Search</button>\n\t</form>\n\t"

/-- The literal template text after `{{end}}` (main.go:99-102). -/
def footLit : String :=
  "\n</body>\n</html>\n"

/-- The rendered page as the ordered list of its pieces: the parsed
template `tmpl` (main.go:56-102) applied to the data, with every
substitution HTML-escaped as `html/template` does. -/
def renderPage (d : TemplateData) : List Piece :=
  [Piece.lit headLit, Piece.dat (htmlEscape d.Query), Piece.lit formTailLit] ++
  bodyPieces d ++ [Piece.lit footLit]

/-- The rendered page as a single string. -/
def pageText (d : TemplateData) : String :=
  String.join ((renderPage d).map Piece.str)

/-- The characters the page receives from data substitutions (as opposed to
literal template text). -/
def datChars (d : TemplateData) : List Char :=
  ((renderPage d).filterMap (fun p =>
      match p with
      | Piece.dat s => some s
      | Piece.lit _ => none)).flatMap String.data

/-- Prefix test on character lists. -/
def startsWithL : List Char → List Char → Bool
  | [], _ => true
  | _ :: _, [] => false
  | p :: ps, h :: hs => p == h && startsWithL ps hs

/-- Substring test on character lists. -/
def hasSubL (pat : List Char) : List Char → Bool
  | [] => pat.isEmpty
  | c :: hs => startsWithL pat (c :: hs) || hasSubL pat hs

/-- Substring test on strings (haystack first). -/
def containsSub (hay pat : String) : Bool :=
  hasSubL pat.data hay.data

/-- What the HTTP handler produced for one request. -/
inductive HandlerOutcome where
  | page (pieces : List Piece) : HandlerOutcome
  | panicked : HandlerOutcome
  deriving Repr, DecidableEq

/-- The HTTP handler (main.go:112-133).  `query` is `r.URL.Query().Get("q")`
(the empty string when the parameter is absent).  `data.AI` starts as Go's
`nil` pointer; for a non-empty query the handler calls `fetchAIOverview`;
on success it stores the overview and renders; on error it executes
`data.AI.Error = err.Error()` (main.go:123) — a field write through the
still-`nil` pointer, i.e. a runtime panic before any rendering (the log
write of main.go:122 happens first and is not modelled).  The result also
reports whether the fetch operation was invoked and which external calls
it issued.  Template execution of the parsed constant template cannot fail
on this data, so the 500 branch of main.go:130-132 is unreachable in the
model. -/
def handleRequest (api : Oracle) (apiKey query : String) :
    HandlerOutcome × Bool × List Params :=
  if query = "" then
    (HandlerOutcome.page (renderPage ⟨query, none⟩), false, [])
  else
    match fetchAIOverview api apiKey query with
    | (calls, Except.ok ai) =>
        (HandlerOutcome.page (renderPage ⟨query, some ai⟩), true, calls)
    | (calls, Except.error _) => (HandlerOutcome.panicked, true, calls)

/-- An API oracle that fails every call at the transport level. -/
def failingOracle : Oracle := fun _ _ => Except.error "serpapi transport failure"

/-- An API oracle whose primary response contains no "ai_overview" key. -/
def noOverviewOracle : Oracle := fun _ _ =>
  Except.ok [("search_metadata", Json.obj []), ("organic_results", Json.arr [])]

/-- An "ai_overview" payload that decodes to an empty overview (the key
"page_token" is unknown to the `AIOverview` struct and is ignored) but whose
`page_token` is a number, so the `SearchMetadata` decode fails. -/
def tokenNumPayload : Json := Json.obj [("page_token", Json.num 123)]

/-- An oracle whose primary response carries `tokenNumPayload` and which
reports any further call as an error. -/
def tokenNumOracle : Oracle := fun _ ps =>
  if ps = primaryParams "coffee" then Except.ok [("ai_overview", tokenNumPayload)]
  else Except.error "no further calls"

/-- Whatever the outcome of the secondary call, the fallback path issues it
with the token extracted from the metadata, so its call list is the primary
call followed by the secondary call. -/
theorem fetchFallback_calls_of_meta (api : Oracle) (apiKey query : String)
    (payload : Json) (meta : SearchMetadata)
    (hmeta : decodeSearchMetadata payload = Except.ok meta) :
    (fetchFallback api apiKey query payload).1 =
      [primaryParams query, secondaryParams meta.PageToken] := by
  unfold fetchFallback
  rw [hmeta]
  rcases h6 : api apiKey (secondaryParams meta.PageToken) with e | results2 <;>
    simp only [h6]
  rcases h7 : decodeAIOverview ((jLookup results2 "ai_overview").getD Json.null)
      with e2 | o2 <;> simp only [h7]

/-- When the inline payload fails the first decode-or-emptiness check, the
fetch operation continues with the fallback path on that same payload. -/
theorem fetchAIOverview_eq_fallback (api : Oracle) (apiKey query : String)
    (results : List (String × Json)) (payload : Json)
    (h1 : api apiKey (primaryParams query) = Except.ok results)
    (h2 : jLookup results "ai_overview" = some payload)
    (hfail : (∃ msg, decodeAIOverview payload = Except.error msg) ∨
      ∃ o, decodeAIOverview payload = Except.ok o ∧ o.IsEmpty = true) :
    fetchAIOverview api apiKey query = fetchFallback api apiKey query payload := by
  rcases hfail with ⟨msg, h3⟩ | ⟨o, h3, h4⟩
  · simp [fetchAIOverview, h1, h2, h3]
  · simp [fetchAIOverview, h1, h2, h3, h4]

/-- Claim C1: the claim says that for every non-empty query whose fetch
fails, the handler logs the error and renders the error message as
user-visible text in a 200 page.  The code instead executes
`data.AI.Error = err.Error()` (main.go:123) while `data.AI` is still the
`nil` pointer, so the handler panics before rendering anything: with an
oracle that fails the primary call, the fetch operation returns a
`FetchError` and the handler outcome is a panic, not a page (and the
template of main.go:56-102 never outputs the `Error` field anyway). -/
theorem C1_handler_panics_instead_of_rendering_error :
    (fetchAIOverview failingOracle "k" "golang").2 =
      Except.error (FetchErr.fetchFail "serpapi transport failure")
    ∧ handleRequest failingOracle "k" "golang" =
      (HandlerOutcome.panicked, true, [primaryParams "golang"]) :=
  ⟨rfl, rfl⟩

/-- Claim C3: for a non-empty query whose primary response's "ai_overview"
field decodes successfully into an overview with at least one text block or
reference, `fetchAIOverview` returns that overview immediately and the only
external call issued is the primary one. -/
theorem C3_inline_nonempty_returned_without_second_call
    (api : Oracle) (apiKey query : String) (results : List (String × Json))
    (payload : Json) (o : AIOverview)
    (_hq : query ≠ "")
    (h1 : api apiKey (primaryParams query) = Except.ok results)
    (h2 : jLookup results "ai_overview" = some payload)
    (h3 : decodeAIOverview payload = Except.ok o)
    (h4 : o.IsEmpty = false) :
    fetchAIOverview api apiKey query = ([primaryParams query], Except.ok o) := by
  simp [fetchAIOverview, h1, h2, h3, h4]

/-- An "ai_overview" payload holding one paragraph text block. -/
def inlinePayload : Json :=
  Json.obj [("text_blocks",
    Json.arr [Json.obj [("type", Json.str "paragraph"), ("snippet", Json.str "hi")]])]

/-- An oracle whose primary response inlines `inlinePayload` and which
reports any further call as an error. -/
def inlineOracle : Oracle := fun _ ps =>
  if ps = primaryParams "lean" then Except.ok [("ai_overview", inlinePayload)]
  else Except.error "no further calls"

/-- Witness for C3: a concrete run returning the inlined one-block overview
with only the primary call issued. -/
theorem C3_witness :
    fetchAIOverview inlineOracle "k" "lean" =
      ([primaryParams "lean"], Except.ok ⟨[⟨"paragraph", "hi", [], [], []⟩], [], ""⟩) :=
  C3_inline_nonempty_returned_without_second_call inlineOracle "k" "lean"
    [("ai_overview", inlinePayload)] inlinePayload
    ⟨[⟨"paragraph", "hi", [], [], []⟩], [], ""⟩ (by decide) (by rfl) (by rfl)
    (by rfl) (by rfl)

/-- Claim C4: the claim says that for a non-empty query whose primary
response has no "ai_overview" key, the fetch operation fails with the
not-found error and the rendered page shows the "No AI Overview found"
message with that query.  The fetch half holds: `fetchAIOverview` returns
the `errors.New("ai overview not found")` failure (main.go:166-171).  But
the handler then panics on the `nil`-pointer field write at main.go:123, so
no page is rendered at all; the third conjunct shows the message the
template would have rendered had `data.AI` stayed `nil` and execution
reached `tpl.Execute` — the evident intent of the code. -/
theorem C4_not_found_error_but_page_never_rendered :
    fetchAIOverview noOverviewOracle "k" "golang" =
      ([primaryParams "golang"], Except.error FetchErr.notFound)
    ∧ handleRequest noOverviewOracle "k" "golang" =
      (HandlerOutcome.panicked, true, [primaryParams "golang"])
    ∧ containsSub (pageText ⟨"golang", none⟩) "No AI Overview found for: golang" = true :=
  ⟨rfl, rfl, rfl⟩

/-- Claim C5: when the primary "ai_overview" payload failed the first
decode-or-emptiness check and the same payload also fails to decode as
`SearchMetadata`, the fetch operation fails with that decode error and the
primary call is the only external call issued. -/
theorem C5_metadata_decode_failure_no_second_call
    (api : Oracle) (apiKey query : String) (results : List (String × Json))
    (payload : Json) (m : String)
    (h1 : api apiKey (primaryParams query) = Except.ok results)
    (h2 : jLookup results "ai_overview" = some payload)
    (hfail : (∃ msg, decodeAIOverview payload = Except.error msg) ∨
      ∃ o, decodeAIOverview payload = Except.ok o ∧ o.IsEmpty = true)
    (hmeta : decodeSearchMetadata payload = Except.error m) :
    fetchAIOverview api apiKey query =
      ([primaryParams query], Except.error (FetchErr.decodeFail m)) := by
  rw [fetchAIOverview_eq_fallback api apiKey query results payload h1 h2 hfail]
  unfold fetchFallback
  rw [hmeta]

/-- Witness for C5: with a primary payload whose `page_token` is a number,
the overview decode yields an empty overview, the metadata decode fails,
and the fetch operation stops with the decode error after one call. -/
theorem C5_witness :
    fetchAIOverview tokenNumOracle "k" "coffee" =
      ([primaryParams "coffee"],
       Except.error (FetchErr.decodeFail "cannot unmarshal into string")) :=
  C5_metadata_decode_failure_no_second_call tokenNumOracle "k" "coffee"
    [("ai_overview", tokenNumPayload)] tokenNumPayload "cannot unmarshal into string"
    (by rfl) (by rfl) (Or.inr ⟨⟨[], [], ""⟩, by rfl, by rfl⟩) (by rfl)

/-- Claim C7: for an empty (or absent) "q" parameter the fetch operation is
not invoked, and the rendered page contains the input form but neither the
"No AI Overview found" message nor any overview content. -/
theorem C7_empty_query_renders_form_only (api : Oracle) (apiKey : String) :
    handleRequest api apiKey "" =
      (HandlerOutcome.page (renderPage ⟨"", none⟩), false, [])
    ∧ containsSub (pageText ⟨"", none⟩) "<form method=\"GET\">" = true
    ∧ containsSub (pageText ⟨"", none⟩) "No AI Overview found" = false
    ∧ containsSub (pageText ⟨"", none⟩) "AI Overview Result" = false :=
  ⟨rfl, rfl, rfl, rfl⟩

/-- Claim C2, counterexample: the claim quantifies over every payload that
decodes to an overview with zero blocks and zero references and asserts a
secondary call is then always issued.  The payload
`{"page_token": 123}` decodes to exactly such an empty overview (the key is
unknown to the `AIOverview` struct and ignored), yet the `SearchMetadata`
decode of the same payload fails (a number where a string is expected), so
`fetchAIOverview` stops with a decode error after the primary call: no
secondary call is issued. -/
theorem C2_counterexample :
    decodeAIOverview tokenNumPayload = Except.ok ⟨[], [], ""⟩
    ∧ AIOverview.IsEmpty ⟨[], [], ""⟩ = true
    ∧ fetchAIOverview tokenNumOracle "k" "coffee" =
        ([primaryParams "coffee"],
         Except.error (FetchErr.decodeFail "cannot unmarshal into string")) :=
  ⟨by rfl, by rfl, by rfl⟩

/-- Claim C2, amended: for every non-empty query whose primary response's
"ai_overview" field decodes to an overview with zero text blocks and zero
references, and whose payload also decodes as continuation-token metadata,
the fetch operation issues exactly one secondary call, with engine
"google_ai_overview" and the extracted token, and whenever that call
succeeds and its "ai_overview" field decodes, the decoded overview is the
final result with no emptiness check applied (an empty second result is
returned as success). -/
theorem C2_empty_inline_triggers_single_fallback_call
    (api : Oracle) (apiKey query : String) (results : List (String × Json))
    (payload : Json) (o : AIOverview) (meta : SearchMetadata)
    (_hq : query ≠ "")
    (h1 : api apiKey (primaryParams query) = Except.ok results)
    (h2 : jLookup results "ai_overview" = some payload)
    (h3 : decodeAIOverview payload = Except.ok o)
    (h4 : o.IsEmpty = true)
    (h5 : decodeSearchMetadata payload = Except.ok meta) :
    (fetchAIOverview api apiKey query).1 =
      [primaryParams query, secondaryParams meta.PageToken]
    ∧ ∀ (results2 : List (String × Json)) (o2 : AIOverview),
        api apiKey (secondaryParams meta.PageToken) = Except.ok results2 →
        decodeAIOverview ((jLookup results2 "ai_overview").getD Json.null) =
          Except.ok o2 →
        (fetchAIOverview api apiKey query).2 = Except.ok o2 := by
  have hfb : fetchAIOverview api apiKey query = fetchFallback api apiKey query payload :=
    fetchAIOverview_eq_fallback api apiKey query results payload h1 h2
      (Or.inr ⟨o, h3, h4⟩)
  constructor
  · rw [hfb]
    exact fetchFallback_calls_of_meta api apiKey query payload meta h5
  · intro results2 o2 h6 h7
    rw [hfb]
    unfold fetchFallback
    simp only [h5, h6, h7]

/-- An "ai_overview" payload carrying only a continuation token. -/
def tokenOnlyPayload : Json := Json.obj [("page_token", Json.str "tok123")]

/-- An oracle inlining `tokenOnlyPayload` on the primary call and answering
the secondary call with a response whose "ai_overview" is JSON `null`. -/
def fallbackOracle : Oracle := fun _ ps =>
  if ps = primaryParams "espresso" then Except.ok [("ai_overview", tokenOnlyPayload)]
  else if ps = secondaryParams "tok123" then Except.ok [("ai_overview", Json.null)]
  else Except.error "no further calls"

/-- Witness for the amended C2: a concrete run issuing exactly the primary
and the secondary call and returning the (empty) second decode as success. -/
theorem C2_witness :
    (fetchAIOverview fallbackOracle "k" "espresso").1 =
      [primaryParams "espresso", secondaryParams "tok123"]
    ∧ (fetchAIOverview fallbackOracle "k" "espresso").2 =
      Except.ok ⟨[], [], ""⟩ := by
  have h := C2_empty_inline_triggers_single_fallback_call fallbackOracle "k" "espresso"
    [("ai_overview", tokenOnlyPayload)] tokenOnlyPayload ⟨[], [], ""⟩ ⟨"tok123", ""⟩
    (by decide) (by rfl) (by rfl) (by rfl) (by rfl) (by rfl)
  exact ⟨h.1, h.2 [("ai_overview", Json.null)] ⟨[], [], ""⟩ (by rfl) (by rfl)⟩

/-- Claim C8: every run of the fetch operation issues the primary call with
engine "google", the query and the fixed location/domain/country/language
settings (the definition of `primaryParams`), and when a secondary call is
issued it carries engine "google_ai_overview", the continuation token
decoded from the primary response's "ai_overview" field, and the fixed
country/language settings (the definition of `secondaryParams`). -/
theorem C8_call_parameter_shapes (api : Oracle) (apiKey query : String) :
    (fetchAIOverview api apiKey query).1 = [primaryParams query]
    ∨ ∃ (results : List (String × Json)) (payload : Json) (meta : SearchMetadata),
        api apiKey (primaryParams query) = Except.ok results
        ∧ jLookup results "ai_overview" = some payload
        ∧ decodeSearchMetadata payload = Except.ok meta
        ∧ (fetchAIOverview api apiKey query).1 =
            [primaryParams query, secondaryParams meta.PageToken] := by
  rcases h1 : api apiKey (primaryParams query) with e | results
  · left
    simp [fetchAIOverview, h1]
  · rcases h2 : jLookup results "ai_overview" with _ | payload
    · left
      simp [fetchAIOverview, h1, h2]
    · rcases h3 : decodeAIOverview payload with msg | o
      · rcases hm : decodeSearchMetadata payload with m | meta
        · left
          have hfb := fetchAIOverview_eq_fallback api apiKey query results payload h1 h2
            (Or.inl ⟨msg, h3⟩)
          rw [hfb]
          unfold fetchFallback
          rw [hm]
        · right
          refine ⟨results, payload, meta, rfl, h2, hm, ?_⟩
          have hfb := fetchAIOverview_eq_fallback api apiKey query results payload h1 h2
            (Or.inl ⟨msg, h3⟩)
          rw [hfb]
          exact fetchFallback_calls_of_meta api apiKey query payload meta hm
      · rcases he : o.IsEmpty with _ | _
        · left
          simp [fetchAIOverview, h1, h2, h3, he]
        · rcases hm : decodeSearchMetadata payload with m | meta
          · left
            have hfb := fetchAIOverview_eq_fallback api apiKey query results payload h1 h2
              (Or.inr ⟨o, h3, he⟩)
            rw [hfb]
            unfold fetchFallback
            rw [hm]
          · right
            refine ⟨results, payload, meta, rfl, h2, hm, ?_⟩
            have hfb := fetchAIOverview_eq_fallback api apiKey query results payload h1 h2
              (Or.inr ⟨o, h3, he⟩)
            rw [hfb]
            exact fetchFallback_calls_of_meta api apiKey query payload meta hm

/-- A struct field absent from the object decodes to the zero value. -/
theorem decodeField_of_none {α : Type} (fs : List (String × Json)) (tag : String)
    (dec : Json → Except String α) (dflt : α)
    (h : lookupField fs tag = none) :
    decodeField fs tag dec dflt = Except.ok dflt := by
  unfold decodeField
  rw [h]

/-- A struct field whose JSON value is `null` decodes to the zero value. -/
theorem decodeField_of_null {α : Type} (fs : List (String × Json)) (tag : String)
    (dec : Json → Except String α) (dflt : α)
    (h : lookupField fs tag = some Json.null) :
    decodeField fs tag dec dflt = Except.ok dflt := by
  unfold decodeField
  rw [h]

/-- A string-typed struct field whose JSON value is a string decodes to it. -/
theorem decodeField_of_str (fs : List (String × Json)) (tag : String)
    (dflt s : String)
    (h : lookupField fs tag = some (Json.str s)) :
    decodeField fs tag decodeString dflt = Except.ok s := by
  unfold decodeField
  rw [h]
  rfl

/-- Claim C9: the secondary response's "ai_overview" key is read without an
`ok` check (main.go:210); when the key is missing, the `nil` interface value
marshals to JSON `null`, `null` decodes into the zero `AIOverview` without
error, and that empty overview is the successful final result. -/
theorem C9_missing_secondary_key_yields_empty_success
    (api : Oracle) (apiKey query : String) (results : List (String × Json))
    (payload : Json) (meta : SearchMetadata) (results2 : List (String × Json))
    (h1 : api apiKey (primaryParams query) = Except.ok results)
    (h2 : jLookup results "ai_overview" = some payload)
    (hfail : (∃ msg, decodeAIOverview payload = Except.error msg) ∨
      ∃ o, decodeAIOverview payload = Except.ok o ∧ o.IsEmpty = true)
    (h5 : decodeSearchMetadata payload = Except.ok meta)
    (h6 : api apiKey (secondaryParams meta.PageToken) = Except.ok results2)
    (h7 : jLookup results2 "ai_overview" = none) :
    decodeAIOverview Json.null = Except.ok ⟨[], [], ""⟩
    ∧ (fetchAIOverview api apiKey query).2 = Except.ok ⟨[], [], ""⟩ := by
  constructor
  · rfl
  · rw [fetchAIOverview_eq_fallback api apiKey query results payload h1 h2 hfail]
    unfold fetchFallback
    simp only [h5, h6, h7, Option.getD_none]
    rfl

/-- An oracle whose primary "ai_overview" is the empty object (empty inline
overview, empty-token metadata) and whose secondary response lacks the
"ai_overview" key entirely. -/
def emptyObjOracle : Oracle := fun _ ps =>
  if ps = primaryParams "mocha" then Except.ok [("ai_overview", Json.obj [])]
  else if ps = secondaryParams "" then Except.ok [("search_parameters", Json.obj [])]
  else Except.error "no further calls"

/-- Witness for C9: a concrete run whose secondary response has no
"ai_overview" key still returns the empty overview as success. -/
theorem C9_witness :
    (fetchAIOverview emptyObjOracle "k" "mocha").2 = Except.ok ⟨[], [], ""⟩ :=
  (C9_missing_secondary_key_yields_empty_success emptyObjOracle "k" "mocha"
    [("ai_overview", Json.obj [])] (Json.obj []) ⟨"", ""⟩
    [("search_parameters", Json.obj [])] (by rfl) (by rfl)
    (Or.inr ⟨⟨[], [], ""⟩, by rfl, by rfl⟩) (by rfl) (by rfl) (by rfl)).2

/-- An "ai_overview" payload with no `page_token` key and a numeric
`serpapi_link`. -/
def linkNumPayload : Json := Json.obj [("serpapi_link", Json.num 5)]

/-- An oracle whose primary response carries `linkNumPayload` and which
reports any further call as an error. -/
def linkNumOracle : Oracle := fun _ ps =>
  if ps = primaryParams "tea" then Except.ok [("ai_overview", linkNumPayload)]
  else Except.error "no further calls"

/-- Claim C10, counterexample: the claim asserts the metadata decode
succeeds for any JSON-object payload without a "page_token" field and that
the secondary call is then issued with an empty token.  The object
`{"serpapi_link": 5}` has no "page_token" field, yet its `SearchMetadata`
decode fails (number where a string is expected), and `fetchAIOverview`
stops with a decode error after the primary call: no secondary call. -/
theorem C10_counterexample :
    lookupField [("serpapi_link", Json.num 5)] "page_token" = none
    ∧ decodeAIOverview linkNumPayload = Except.ok ⟨[], [], ""⟩
    ∧ decodeSearchMetadata linkNumPayload =
        Except.error "cannot unmarshal into string"
    ∧ fetchAIOverview linkNumOracle "k" "tea" =
        ([primaryParams "tea"],
         Except.error (FetchErr.decodeFail "cannot unmarshal into string")) :=
  ⟨by rfl, by rfl, by rfl, by rfl⟩

/-- Claim C10, amended: the metadata decode succeeds for a JSON-object
payload with no "page_token" field provided its "serpapi_link" field, when
present, is a string (or null); the token then defaults to the empty
string, and a fetch whose first decode-or-emptiness check failed on such a
payload proceeds to issue the secondary call with an empty "page_token"
parameter rather than failing with a decode error. -/
theorem C10_missing_page_token_defaults_to_empty
    (api : Oracle) (apiKey query : String) (results : List (String × Json))
    (fs : List (String × Json))
    (h1 : api apiKey (primaryParams query) = Except.ok results)
    (h2 : jLookup results "ai_overview" = some (Json.obj fs))
    (hfail : (∃ msg, decodeAIOverview (Json.obj fs) = Except.error msg) ∨
      ∃ o, decodeAIOverview (Json.obj fs) = Except.ok o ∧ o.IsEmpty = true)
    (hpt : lookupField fs "page_token" = none)
    (hlink : lookupField fs "serpapi_link" = none ∨
      lookupField fs "serpapi_link" = some Json.null ∨
      ∃ s, lookupField fs "serpapi_link" = some (Json.str s)) :
    (∃ link, decodeSearchMetadata (Json.obj fs) = Except.ok ⟨"", link⟩)
    ∧ (fetchAIOverview api apiKey query).1 =
        [primaryParams query, secondaryParams ""] := by
  have e1 : decodeField fs "page_token" decodeString "" = Except.ok "" :=
    decodeField_of_none fs "page_token" decodeString "" hpt
  have hdec : ∃ link, decodeSearchMetadata (Json.obj fs) = Except.ok ⟨"", link⟩ := by
    rcases hlink with h | h | ⟨s, h⟩
    · refine ⟨"", ?_⟩
      have e2 := decodeField_of_none fs "serpapi_link" decodeString "" h
      simp only [decodeSearchMetadata, e1, e2]
      rfl
    · refine ⟨"", ?_⟩
      have e2 := decodeField_of_null fs "serpapi_link" decodeString "" h
      simp only [decodeSearchMetadata, e1, e2]
      rfl
    · refine ⟨s, ?_⟩
      have e2 := decodeField_of_str fs "serpapi_link" "" s h
      simp only [decodeSearchMetadata, e1, e2]
      rfl
  obtain ⟨link, hmeta⟩ := hdec
  refine ⟨⟨link, hmeta⟩, ?_⟩
  rw [fetchAIOverview_eq_fallback api apiKey query results (Json.obj fs) h1 h2 hfail]
  exact fetchFallback_calls_of_meta api apiKey query (Json.obj fs) ⟨"", link⟩ hmeta

/-- An "ai_overview" payload carrying only a string `serpapi_link`. -/
def linkOnlyPayload : Json :=
  Json.obj [("serpapi_link", Json.str "https://serpapi.example/x")]

/-- An oracle whose primary response carries `linkOnlyPayload`; the
secondary call (with empty token) fails at the transport level, which does
not change which calls were issued. -/
def linkOnlyOracle : Oracle := fun _ ps =>
  if ps = primaryParams "matcha" then Except.ok [("ai_overview", linkOnlyPayload)]
  else if ps = secondaryParams "" then Except.error "quota exceeded"
  else Except.error "no further calls"

/-- Witness for the amended C10: a concrete run whose payload lacks
"page_token" still issues the secondary call with an empty token. -/
theorem C10_witness :
    (fetchAIOverview linkOnlyOracle "k" "matcha").1 =
      [primaryParams "matcha", secondaryParams ""] :=
  (C10_missing_page_token_defaults_to_empty linkOnlyOracle "k" "matcha"
    [("ai_overview", linkOnlyPayload)]
    [("serpapi_link", Json.str "https://serpapi.example/x")]
    (by rfl) (by rfl) (Or.inr ⟨⟨[], [], ""⟩, by rfl, by rfl⟩) (by rfl)
    (Or.inr (Or.inr ⟨"https://serpapi.example/x", by rfl⟩))).2

/-- The escape expansion of a single character never contains a raw `<`
or `>`. -/
theorem escChar_no_markup (a c : Char) (h : c ∈ escChar a) :
    c ≠ '<' ∧ c ≠ '>' := by
  unfold escChar at h
  split_ifs at h with h1 h2 h3 h4 h5
  · rw [show "&lt;".data = ['&', 'l', 't', ';'] from rfl] at h
    fin_cases h <;> exact ⟨by decide, by decide⟩
  · rw [show "&gt;".data = ['&', 'g', 't', ';'] from rfl] at h
    fin_cases h <;> exact ⟨by decide, by decide⟩
  · rw [show "&amp;".data = ['&', 'a', 'm', 'p', ';'] from rfl] at h
    fin_cases h <;> exact ⟨by decide, by decide⟩
  · rw [show "&#39;".data = ['&', '#', '3', '9', ';'] from rfl] at h
    fin_cases h <;> exact ⟨by decide, by decide⟩
  · rw [show "&#34;".data = ['&', '#', '3', '4', ';'] from rfl] at h
    fin_cases h <;> exact ⟨by decide, by decide⟩
  · simp only [List.mem_singleton] at h
    subst h
    exact ⟨h1, h2⟩

/-- No character of an escaped string is a raw `<` or `>`. -/
theorem htmlEscape_no_markup (s : String) (c : Char)
    (h : c ∈ (htmlEscape s).data) : c ≠ '<' ∧ c ≠ '>' := by
  unfold htmlEscape at h
  rw [show (String.mk (s.data.flatMap escChar)).data = s.data.flatMap escChar from rfl,
    List.mem_flatMap] at h
  obtain ⟨a, _, hc⟩ := h
  exact escChar_no_markup a c hc

/-- Every data substitution of a list item is an escaped string. -/
theorem itemPieces_dat (it : ListItem) (s : String)
    (h : Piece.dat s ∈ itemPieces it) : ∃ t, s = htmlEscape t := by
  simp only [itemPieces, List.mem_cons, List.not_mem_nil, or_false] at h
  rcases h with h | h | h | h | h <;>
    first
      | (exact ⟨_, (Piece.dat.injEq _ _).mp h⟩)
      | (exact absurd h (by simp))

/-- Every data substitution of a `{{if .List}}` section is an escaped
string. -/
theorem listPieces_dat (l : List ListItem) (s : String)
    (h : Piece.dat s ∈ listPieces l) : ∃ t, s = htmlEscape t := by
  unfold listPieces at h
  simp only [List.mem_append, List.mem_flatMap, List.mem_singleton] at h
  rcases h with (h | ⟨it, _, hit⟩) | h
  · exact Piece.noConfusion h
  · exact itemPieces_dat it s hit
  · exact Piece.noConfusion h

/-- Every data substitution of a text block is an escaped string. -/
theorem blockPieces_dat (tb : TextBlock) (s : String)
    (h : Piece.dat s ∈ blockPieces tb) : ∃ t, s = htmlEscape t := by
  unfold blockPieces at h
  simp only [List.mem_append] at h
  rcases h with (h | h) | h
  · simp only [List.mem_cons, List.not_mem_nil, or_false] at h
    rcases h with h | h | h | h | h <;>
      first
        | (exact ⟨_, (Piece.dat.injEq _ _).mp h⟩)
        | (exact Piece.noConfusion h)
  · split at h
    · exact absurd h (List.not_mem_nil _)
    · exact listPieces_dat tb.Lst s h
  · rw [List.mem_singleton] at h
    exact Piece.noConfusion h

/-- Every data substitution of a reference entry is an escaped string. -/
theorem refPieces_dat (rf : Reference) (s : String)
    (h : Piece.dat s ∈ refPieces rf) : ∃ t, s = htmlEscape t := by
  simp only [refPieces, List.mem_cons, List.not_mem_nil, or_false] at h
  rcases h with h | h | h | h | h | h | h | h | h | h | h <;>
    first
      | (exact ⟨_, (Piece.dat.injEq _ _).mp h⟩)
      | (exact Piece.noConfusion h)

/-- Every data substitution of the overview branch is an escaped string. -/
theorem aiPieces_dat (ai : AIOverview) (s : String)
    (h : Piece.dat s ∈ aiPieces ai) : ∃ t, s = htmlEscape t := by
  unfold aiPieces at h
  simp only [List.mem_append, List.mem_flatMap, List.mem_singleton] at h
  rcases h with (((h | ⟨tb, _, htb⟩) | h) | ⟨rf, _, hrf⟩) | h
  · exact Piece.noConfusion h
  · exact blockPieces_dat tb s htb
  · exact Piece.noConfusion h
  · exact refPieces_dat rf s hrf
  · exact Piece.noConfusion h

/-- Every data substitution of the conditional body is an escaped string. -/
theorem bodyPieces_dat (d : TemplateData) (s : String)
    (h : Piece.dat s ∈ bodyPieces d) : ∃ t, s = htmlEscape t := by
  obtain ⟨q, oai⟩ := d
  unfold bodyPieces at h
  rcases oai with _ | ai
  · dsimp only at h
    split at h
    · exact absurd h (List.not_mem_nil _)
    · simp only [List.mem_cons, List.not_mem_nil, or_false] at h
      rcases h with h | h | h <;>
        first
          | (exact ⟨_, (Piece.dat.injEq _ _).mp h⟩)
          | (exact Piece.noConfusion h)
  · dsimp only at h
    exact aiPieces_dat ai s h

/-- Every data substitution of the whole rendered page is an escaped
string. -/
theorem renderPage_dat (d : TemplateData) (s : String)
    (h : Piece.dat s ∈ renderPage d) : ∃ t, s = htmlEscape t := by
  unfold renderPage at h
  simp only [List.mem_append, List.mem_singleton] at h
  rcases h with (h | h) | h
  · simp only [List.mem_cons, List.not_mem_nil, or_false] at h
    rcases h with h | h | h <;>
      first
        | (exact ⟨_, (Piece.dat.injEq _ _).mp h⟩)
        | (exact Piece.noConfusion h)
  · exact bodyPieces_dat d s h
  · exact Piece.noConfusion h

/-- Every character the page receives from a data substitution comes from
an escaped string. -/
theorem datChars_escaped (d : TemplateData) (c : Char)
    (h : c ∈ datChars d) : ∃ t, c ∈ (htmlEscape t).data := by
  unfold datChars at h
  rw [List.mem_flatMap] at h
  obtain ⟨u, hu, hc⟩ := h
  rw [List.mem_filterMap] at hu
  obtain ⟨p, hp, hpick⟩ := hu
  rcases p with s | s
  · simp at hpick
  · simp only [Option.some.injEq] at hpick
    obtain ⟨t, ht⟩ := renderPage_dat d s hp
    exact ⟨t, by rw [← hpick, ht] at hc; exact hc⟩

/-- Claim C6: every text value taken from the API response (snippets,
titles, sources, links, the query) is substituted into the page through
`htmlEscape`, so no substituted character is a raw `<` or `>` — substituted
text cannot open or close a tag, and the only unescaped markup on the page
is the literal text of the template itself; concretely, an input containing
a script tag renders as the literal entity-escaped text. -/
theorem C6_substituted_text_is_escaped :
    (∀ (d : TemplateData) (c : Char), c ∈ datChars d → c ≠ '<' ∧ c ≠ '>')
    ∧ htmlEscape "<script>alert(1)</script>" =
        "&lt;script&gt;alert(1)&lt;/script&gt;" := by
  constructor
  · intro d c h
    obtain ⟨t, hc⟩ := datChars_escaped d c h
    exact htmlEscape_no_markup t c hc
  · rfl

/-- Witness for C6: in the page rendered for the query containing a script
tag, the character from the substituted data is not markup. -/
theorem C6_witness : 's' ≠ '<' ∧ 's' ≠ '>' :=
  C6_substituted_text_is_escaped.1 ⟨"<script>", none⟩ 's' (by decide)
